import Mathlib

/-!
Shallow embedding of the anpush server (src/server.ts): the poll cycle
`pollLatest`, the payload builder `toPushPayload`, the subscription
registration handler, and the persisted-store helpers.  External
collaborators (network fetch, JSON.parse, SHA-256, the YAML parser, the
web-push delivery call, the clock, and store-write faults) are inputs of
the model, bundled in a `World`.
-/

namespace Anpush

/-- A JSON value as the server inspects it: a string, a number (carried as
its JavaScript `String()` rendering), or anything else that is present but
neither string nor number (boolean / object / array).  A JSON `null` field
is modelled as the field being absent, matching how `??` and the `typeof`
checks treat it. -/
inductive JVal
  | str (s : String)
  | num (s : String)
  | other
  deriving DecidableEq, Repr

/-- The fields of a parsed feed record that server.ts ever reads
(`hash`, `id`, `timestamp`, `ts` for the identifier; `text` and `author`
for the payload/summary). -/
structure JRecord where
  hash : Option JVal := none
  id : Option JVal := none
  timestamp : Option JVal := none
  ts : Option JVal := none
  text : Option JVal := none
  author : Option JVal := none
  deriving DecidableEq, Repr

/-- Persisted dedup state (data/state.json). -/
structure State where
  lastSeenId : Option String := none
  lastSeenHash : Option String := none
  deriving DecidableEq, Repr

structure SubKeys where
  p256dh : String
  auth : String
  deriving DecidableEq, Repr

/-- Persisted subscription record (data/subscriptions.json). -/
structure Subscription where
  id : String
  endpoint : String
  keys : SubKeys
  createdAt : String
  lastNotifiedAt : Option String := none
  deriving DecidableEq, Repr

/-- Outcome of one `webpush.sendNotification` call: success, an error
carrying a `statusCode`, or an error without one. -/
inductive PushOutcome
  | success
  | failStatus (code : Nat)
  | failOther
  deriving DecidableEq, Repr

/-- Outcome of `fetch(LATEST_URL)`: the fetch itself throws, a non-ok
response, or an ok response with a body text. -/
inductive FetchOutcome
  | throws
  | notOk (status : Nat)
  | okBody (body : String)
  deriving DecidableEq, Repr

/-- Outcome of `JSON.parse(bodyText)`: it throws (non-JSON), yields a
non-object primitive, an array whose first element is not an object, an
array whose first element is an object, or a top-level object. -/
inductive ParseOutcome
  | failure
  | primitive
  | arrayNoObj
  | arrayFirstObj (r : JRecord)
  | objectVal (r : JRecord)
  deriving DecidableEq, Repr

/-- The attributes object returned by `apds.parseYaml`, restricted to the
two fields `parsePostYaml` reads. -/
structure YamlAttrs where
  name : Option JVal := none
  body : Option JVal := none
  deriving DecidableEq, Repr

/-- External world of one cycle: fetch/parse results, the SHA-256 oracle,
the YAML-parser oracle (`none` models a throw or a non-object result), the
per-subscription delivery oracle, the clock, and whether the two store
writes would throw. -/
structure World where
  fetch : FetchOutcome
  parsed : ParseOutcome := .failure
  hashFn : String → String := fun _ => ""
  yaml : String → Option YamlAttrs := fun _ => none
  push : Subscription → PushOutcome := fun _ => .success
  now : String := ""
  stateWriteFails : Bool := false
  subsWriteFails : Bool := false

/-- The summary object `pollLatest` returns (the `latest` echo field is a
pure projection of the record and is omitted). -/
structure PollResult where
  changed : Bool
  sent : Bool
  reason : Option String := none
  deriving DecidableEq, Repr

/-- The notification payload fields built by `toPushPayload` (the
`JSON.stringify` wrapping, the constant icon URL and the `latest` echo are
omitted). -/
structure PushPayload where
  title : String
  body : String
  url : String
  hash : String
  deriving DecidableEq, Repr

/-- Observable outcome of one cycle: the returned summary, the contents of
the two stores afterwards, the payload built (if any), how many delivery
calls were attempted and how many succeeded, and how many load/save calls
each store received (saves count calls, including a call that throws). -/
structure CycleOutcome where
  result : PollResult
  stateAfter : State
  subsAfter : List Subscription
  payload : Option PushPayload := none
  attempts : Nat := 0
  delivered : Nat := 0
  stateLoads : Nat := 0
  stateSaves : Nat := 0
  subsLoads : Nat := 0
  subsSaves : Nat := 0
  deriving DecidableEq, Repr

/-- JavaScript's WhiteSpace/LineTerminator set, as `String.prototype.trim`
removes it. -/
def isJsWhitespace (c : Char) : Bool :=
  c = ' ' ∨ c = '\t' ∨ c = '\n' ∨ c = '\r' ∨ c = '\x0b' ∨ c = '\x0c' ∨
    c = '\u00A0' ∨ c = '\u2028' ∨ c = '\u2029' ∨ c = '\uFEFF'

/-- `String.prototype.trim()`: strip leading and trailing JS whitespace. -/
def jsTrim (s : String) : String :=
  String.mk (((s.data.dropWhile isJsWhitespace).reverse.dropWhile isJsWhitespace).reverse)

/-! ### readJsonFile and the two store loaders -/

/-- `readJsonFile`: the attempted read+parse is an input; any failure is
caught and the fallback returned. -/
def readJsonFile {α : Type} (attempt : Except Unit α) (fallback : α) : α :=
  match attempt with
  | .ok v => v
  | .error _ => fallback

/-- `loadSubscriptions`: `readJsonFile(SUBS_FILE, [])`. -/
def loadSubscriptions (attempt : Except Unit (List Subscription)) : List Subscription :=
  readJsonFile attempt []

/-- `loadState`: `readJsonFile(STATE_FILE, {})`. -/
def loadState (attempt : Except Unit State) : State :=
  readJsonFile attempt {}

/-! ### Identifier extraction and change detection (pollLatest lines 157–206) -/

/-- `String(candidate)` guarded by `typeof candidate === "string" ||
typeof candidate === "number"`; anything else leaves `latestId` as `""`. -/
def jvalToId : Option JVal → String
  | some (.str s) => s
  | some (.num s) => s
  | _ => ""

/-- `latestRecord.hash ?? latestRecord.id ?? latestRecord.timestamp ??
latestRecord.ts` (first present field; JSON null counts as absent). -/
def candidateOf (r : JRecord) : Option JVal :=
  (r.hash.orElse fun _ => (r.id.orElse fun _ => (r.timestamp.orElse fun _ => r.ts)))

/-- The record `pollLatest` extracts from the parse outcome (array → first
element when it is an object; object → itself; otherwise none). -/
def recordOf : ParseOutcome → Option JRecord
  | .arrayFirstObj r => some r
  | .objectVal r => some r
  | _ => none

/-- `latestId` after the parse block. -/
def latestIdOf (r : Option JRecord) : String :=
  match r with
  | some rec => jvalToId (candidateOf rec)
  | none => ""

/-- `const latestHash = latestId ? "" : await hashText(bodyText)`. -/
def latestHashOf (hashFn : String → String) (latestId bodyText : String) : String :=
  if latestId = "" then hashFn bodyText else ""

/-- `const isNew = latestId ? latestId !== state.lastSeenId : latestHash
!== state.lastSeenHash` (a string compared with a possibly-undefined
stored string). -/
def isNewOf (latestId latestHash : String) (st : State) : Bool :=
  if latestId = "" then decide (some latestHash ≠ st.lastSeenHash)
  else decide (some latestId ≠ st.lastSeenId)

/-- The marker written by `saveState({ lastSeenId: latestId || undefined,
lastSeenHash: latestHash || undefined })`. -/
def markerOf (latestId latestHash : String) : State :=
  { lastSeenId := if latestId = "" then none else some latestId,
    lastSeenHash := if latestHash = "" then none else some latestHash }

/-! ### Payload builder (toPushPayload, parsePostYaml, formatters) -/

/-- One field of `parsePostYaml`: `typeof v === "string" ? v.trim() :
undefined`, then `x || undefined` (empty-after-trim becomes absent). -/
def strField : Option JVal → Option String
  | some (.str s) => if jsTrim s = "" then none else some (jsTrim s)
  | _ => none

/-- `parsePostYaml`: hand the text to the external YAML parser; a throw or
a non-object result (`none`) yields `{}`. -/
def parsePostYaml (yaml : String → Option YamlAttrs) (text : String) :
    Option String × Option String :=
  match yaml text with
  | some attrs => (strField attrs.name, strField attrs.body)
  | none => (none, none)

/-- `formatPushTitle`. -/
def formatPushTitle (name : Option String) : String :=
  match name with
  | some n => if n = "" then "New anproto message" else "New Wiredove Message from " ++ n
  | none => "New anproto message"

/-- `formatPushBody`. -/
def formatPushBody (body : Option String) : String :=
  match body with
  | some b => if jsTrim b = "" then "Tap to view the latest update" else jsTrim b
  | none => "Tap to view the latest update"

/-- `record && typeof record.hash === "string" ? record.hash : ""` over
the optional record handed to the builder. -/
def payloadHash : Option JRecord → String
  | some r => match r.hash with
    | some (.str s) => s
    | _ => ""
  | none => ""

/-- `record && typeof record.text === "string" ? record.text : ""`. -/
def payloadRawText : Option JRecord → String
  | some r => match r.text with
    | some (.str s) => s
    | _ => ""
  | none => ""

/-- `toPushPayload(latest)`: `latest` abstracted to the record fields it
exposes (`none` for a non-object value; an array exposes no fields). -/
def toPushPayload (latest : Option JRecord) (yaml : String → Option YamlAttrs) :
    PushPayload :=
  let hash := payloadHash latest
  let targetUrl := if hash = "" then "https://wiredove.net/"
    else "https://wiredove.net/#" ++ hash
  let rawText := payloadRawText latest
  let parsed := if rawText = "" then ((none : Option String), (none : Option String))
    else parsePostYaml yaml rawText
  { title := formatPushTitle parsed.1,
    body := formatPushBody parsed.2,
    url := targetUrl,
    hash := hash }

/-- The value `latestRecord ?? latestJson` handed to `toPushPayload`,
abstracted to the fields it exposes: for an array whose first element is
not an object the array itself is passed (an object exposing none of the
read fields); for a parse failure or a primitive the value is not an
object. -/
def payloadInput : ParseOutcome → Option JRecord
  | .arrayFirstObj r => some r
  | .objectVal r => some r
  | .arrayNoObj => some {}
  | .failure => none
  | .primitive => none

/-! ### Dispatch loop (pollLatest lines 218–243) -/

/-- The per-recipient loop: success appends the subscription with
`lastNotifiedAt` set; an error with status 404 or 410 `continue`s (drops
it); any other error re-appends it unchanged. -/
def dispatchLoop (now : String) (push : Subscription → PushOutcome)
    (subs : List Subscription) : List Subscription :=
  subs.foldl
    (fun nextSubs sub =>
      match push sub with
      | .success => nextSubs ++ [{ sub with lastNotifiedAt := some now }]
      | .failStatus code =>
          if code = 404 ∨ code = 410 then nextSubs else nextSubs ++ [sub]
      | .failOther => nextSubs ++ [sub])
    []

/-- Number of successful `sendNotification` calls in the pass. -/
def deliveredCount (push : Subscription → PushOutcome)
    (subs : List Subscription) : Nat :=
  (subs.filter fun s => push s == PushOutcome.success).length

/-! ### The poll cycle (pollLatest) -/

/-- The summary returned by the outer `catch` block. -/
def pollErrorResult : PollResult :=
  { changed := false, sent := false, reason := some "poll error" }

/-- `pollLatest(force)`: one full cycle over the given world, dedup state
and subscription list.  A store write that throws jumps to the outer
`catch`, which returns the "poll error" summary; the failed write leaves
that store's contents unchanged. -/
def pollLatest (force : Bool) (w : World) (st : State)
    (subs : List Subscription) : CycleOutcome :=
  match w.fetch with
  | .throws =>
      { result := pollErrorResult, stateAfter := st, subsAfter := subs }
  | .notOk _ =>
      { result := { changed := false, sent := false, reason := some "latest fetch failed" },
        stateAfter := st, subsAfter := subs }
  | .okBody bodyText =>
      if jsTrim bodyText = "" then
        { result := { changed := false, sent := false, reason := some "empty response" },
          stateAfter := st, subsAfter := subs }
      else
        let latestId := latestIdOf (recordOf w.parsed)
        let latestHash := latestHashOf w.hashFn latestId bodyText
        let isNew := isNewOf latestId latestHash st
        if !isNew && !force then
          { result := { changed := false, sent := false, reason := some "no new messages" },
            stateAfter := st, subsAfter := subs, stateLoads := 1 }
        else if isNew && w.stateWriteFails then
          { result := pollErrorResult, stateAfter := st, subsAfter := subs,
            stateLoads := 1, stateSaves := 1 }
        else
          let stAfter := if isNew then markerOf latestId latestHash else st
          let stSaves := if isNew then 1 else 0
          if subs.length = 0 then
            { result := { changed := true, sent := false, reason := some "no subscriptions" },
              stateAfter := stAfter, subsAfter := subs,
              stateLoads := 1, stateSaves := stSaves, subsLoads := 1 }
          else
            let payload := toPushPayload (payloadInput w.parsed) w.yaml
            let nextSubs := dispatchLoop w.now w.push subs
            if w.subsWriteFails then
              { result := pollErrorResult, stateAfter := stAfter, subsAfter := subs,
                payload := some payload, attempts := subs.length,
                delivered := deliveredCount w.push subs,
                stateLoads := 1, stateSaves := stSaves, subsLoads := 1, subsSaves := 1 }
            else
              { result := { changed := true, sent := true },
                stateAfter := stAfter, subsAfter := nextSubs,
                payload := some payload, attempts := subs.length,
                delivered := deliveredCount w.push subs,
                stateLoads := 1, stateSaves := stSaves, subsLoads := 1, subsSaves := 1 }

/-! ### Registration (the /subscribe handler and subscriptionId) -/

/-- The base64 alphabet used by `btoa`. -/
def b64Alphabet : String :=
  "ABCDEFGHIJKLMNOPQRSTUVWXYZabcdefghijklmnopqrstuvwxyz0123456789+/"

def b64CharAt (n : Nat) : Char :=
  b64Alphabet.data.getD n 'A'

/-- Encode one final group of 1–3 bytes, padding with `=`. -/
def base64Chunk : List Nat → String
  | [a, b, c] => String.mk [b64CharAt (a / 4), b64CharAt (a % 4 * 16 + b / 16),
      b64CharAt (b % 16 * 4 + c / 64), b64CharAt (c % 64)]
  | [a, b] => String.mk [b64CharAt (a / 4), b64CharAt (a % 4 * 16 + b / 16),
      b64CharAt (b % 16 * 4), '=']
  | [a] => String.mk [b64CharAt (a / 4), b64CharAt (a % 4 * 16), '=', '=']
  | _ => ""

def base64Encode : List Nat → String
  | a :: b :: c :: rest => base64Chunk [a, b, c] ++ base64Encode rest
  | rest => base64Chunk rest

/-- `btoa`: base64 of the string's code points (endpoints are ASCII/latin-1,
where code points coincide with the bytes `btoa` encodes). -/
def btoa (s : String) : String :=
  base64Encode (s.data.map Char.toNat)

/-- `subscriptionId(endpoint) = btoa(endpoint).replaceAll("=", "")`:
removing every `=` from the base64 rendering. -/
def subscriptionId (endpoint : String) : String :=
  String.mk ((btoa endpoint).data.filter fun c => c ≠ '=')

/-- The /subscribe handler after validation: load the list, compute the
deterministic id, and append-and-save only when no entry with that id
exists.  Returns the stored list and whether a save happened. -/
def registerRecipient (subs : List Subscription) (endpoint : String)
    (keys : SubKeys) (now : String) : List Subscription × Bool :=
  let id := subscriptionId endpoint
  match subs.find? (fun item => item.id = id) with
  | some _ => (subs, false)
  | none =>
      (subs ++ [{ id := id, endpoint := endpoint, keys := keys,
                  createdAt := now, lastNotifiedAt := none }], true)

/-! ### Spec-side dispatcher (for the refinement claim on selective
pruning): written from the spec's Dispatcher contract. -/

/-- The delivery protocol's terminal "address gone" classification (the
standard expired/invalid-endpoint status codes). -/
def addressGone : PushOutcome → Bool
  | .failStatus code => code == 404 || code == 410
  | _ => false

/-- The next recipient set as the spec's Dispatcher contract describes it:
success retains the recipient with `lastNotifiedAt` set to dispatch time,
"address gone" drops it, any other failure retains it unchanged; computed
in memory over the whole pass. -/
def dispatchPassSpec (now : String) (push : Subscription → PushOutcome)
    (subs : List Subscription) : List Subscription :=
  subs.filterMap fun sub =>
    if push sub = PushOutcome.success then
      some { sub with lastNotifiedAt := some now }
    else if addressGone (push sub) then none
    else some sub

/-! ### Helper lemmas -/

/-- When the stored marker matches the content's identifier (or its
fingerprint when no identifier exists), the change detector reports
not-new. -/
theorem isNew_false_of_match (hashFn : String → String) (latestId b : String)
    (st : State)
    (hm : (latestId ≠ "" ∧ st.lastSeenId = some latestId) ∨
          (latestId = "" ∧ st.lastSeenHash = some (hashFn b))) :
    isNewOf latestId (latestHashOf hashFn latestId b) st = false := by
  rcases hm with ⟨hne, hid⟩ | ⟨he, hh⟩
  · simp [isNewOf, latestHashOf, hne, hid]
  · simp [isNewOf, latestHashOf, he, hh]

/-- C1: Idempotent re-poll — when the stored dedup marker equals the
fetched content's identifier (or its fingerprint when no identifier
exists), a soft cycle reports changed=false, attempts and performs zero
deliveries, and leaves both the persisted dedup marker and the
subscription set unchanged (no save call to either store). -/
theorem idempotent_repoll (w : World) (st : State) (subs : List Subscription)
    (b latestId : String)
    (hf : w.fetch = FetchOutcome.okBody b)
    (hb : jsTrim b ≠ "")
    (hid : latestIdOf (recordOf w.parsed) = latestId)
    (hm : (latestId ≠ "" ∧ st.lastSeenId = some latestId) ∨
          (latestId = "" ∧ st.lastSeenHash = some (w.hashFn b))) :
    (pollLatest false w st subs).result.changed = false ∧
    (pollLatest false w st subs).attempts = 0 ∧
    (pollLatest false w st subs).delivered = 0 ∧
    (pollLatest false w st subs).stateAfter = st ∧
    (pollLatest false w st subs).stateSaves = 0 ∧
    (pollLatest false w st subs).subsAfter = subs ∧
    (pollLatest false w st subs).subsSaves = 0 := by
  have hnew := isNew_false_of_match w.hashFn latestId b st hm
  unfold pollLatest
  rw [hf]
  simp [hb, hid, hnew]

/-- Concrete world for the C1 witness: the feed record carries hash
"abc123" and the stored marker already equals it. -/
def wC1 : World :=
  { fetch := .okBody "feedbody",
    parsed := .objectVal { hash := some (.str "abc123") },
    hashFn := fun _ => "fingerprint", now := "2026-01-01T00:00:00Z" }

theorem idempotent_repoll_witness :
    (pollLatest false wC1 { lastSeenId := some "abc123" } []).result.changed = false ∧
    (pollLatest false wC1 { lastSeenId := some "abc123" } []).attempts = 0 ∧
    (pollLatest false wC1 { lastSeenId := some "abc123" } []).delivered = 0 ∧
    (pollLatest false wC1 { lastSeenId := some "abc123" } []).stateAfter
      = { lastSeenId := some "abc123" } ∧
    (pollLatest false wC1 { lastSeenId := some "abc123" } []).stateSaves = 0 ∧
    (pollLatest false wC1 { lastSeenId := some "abc123" } []).subsAfter = [] ∧
    (pollLatest false wC1 { lastSeenId := some "abc123" } []).subsSaves = 0 :=
  idempotent_repoll wC1 { lastSeenId := some "abc123" } [] "feedbody" "abc123"
    rfl (by decide) rfl (Or.inl ⟨by decide, rfl⟩)

/-- C2: Forced dispatch does not corrupt dedup state — a forced cycle on
unchanged content attempts delivery to every subscription but leaves the
persisted marker unchanged with zero marker-save calls; and in general a
marker save happens in a cycle only when the change detector classifies
the fetched content as new. -/
theorem forced_dispatch_preserves_marker (w : World) (st : State)
    (subs : List Subscription) (b latestId : String)
    (hf : w.fetch = FetchOutcome.okBody b)
    (hb : jsTrim b ≠ "")
    (hid : latestIdOf (recordOf w.parsed) = latestId)
    (hm : (latestId ≠ "" ∧ st.lastSeenId = some latestId) ∨
          (latestId = "" ∧ st.lastSeenHash = some (w.hashFn b))) :
    ((pollLatest true w st subs).stateAfter = st ∧
      (pollLatest true w st subs).stateSaves = 0 ∧
      (pollLatest true w st subs).attempts = subs.length) ∧
    (∀ (f : Bool) (w' : World) (st' : State) (subs' : List Subscription),
      (pollLatest f w' st' subs').stateSaves ≠ 0 →
      ∃ b', w'.fetch = FetchOutcome.okBody b' ∧
        isNewOf (latestIdOf (recordOf w'.parsed))
          (latestHashOf w'.hashFn (latestIdOf (recordOf w'.parsed)) b') st'
          = true) := by
  constructor
  · have hnew := isNew_false_of_match w.hashFn latestId b st hm
    unfold pollLatest
    rw [hf]
    by_cases hlen : subs.length = 0
    · simp [hb, hid, hnew, hlen]
    · by_cases hwf : w.subsWriteFails
      · simp [hb, hid, hnew, hlen, hwf]
      · simp [hb, hid, hnew, hlen, hwf]
  · intro f w' st' subs' hs
    match hfe : w'.fetch with
    | .throws => rw [pollLatest, hfe] at hs; simp at hs
    | .notOk s => rw [pollLatest, hfe] at hs; simp at hs
    | .okBody b' =>
      refine ⟨b', rfl, ?_⟩
      rw [pollLatest, hfe] at hs
      by_cases htrim : jsTrim b' = ""
      · simp [htrim] at hs
      · by_cases hnew : isNewOf (latestIdOf (recordOf w'.parsed))
            (latestHashOf w'.hashFn (latestIdOf (recordOf w'.parsed)) b') st' = true
        · exact hnew
        · exfalso
          simp only [Bool.not_eq_true] at hnew
          by_cases hforce : f = true
          · by_cases hlen : subs'.length = 0
            · simp [htrim, hnew, hforce, hlen] at hs
            · by_cases hwf : w'.subsWriteFails
              · simp [htrim, hnew, hforce, hlen, hwf] at hs
              · simp [htrim, hnew, hforce, hlen, hwf] at hs
          · simp only [Bool.not_eq_true] at hforce
            simp [htrim, hnew, hforce] at hs

/-- Concrete world for the C2 witness: unchanged hash, one subscription,
forced dispatch. -/
def subA : Subscription :=
  { id := "idA", endpoint := "epA", keys := { p256dh := "pA", auth := "aA" },
    createdAt := "t0" }

theorem forced_dispatch_preserves_marker_witness :
    ((pollLatest true wC1 { lastSeenId := some "abc123" } [subA]).stateAfter
        = { lastSeenId := some "abc123" } ∧
      (pollLatest true wC1 { lastSeenId := some "abc123" } [subA]).stateSaves = 0 ∧
      (pollLatest true wC1 { lastSeenId := some "abc123" } [subA]).attempts
        = [subA].length) ∧
    (∀ (f : Bool) (w' : World) (st' : State) (subs' : List Subscription),
      (pollLatest f w' st' subs').stateSaves ≠ 0 →
      ∃ b', w'.fetch = FetchOutcome.okBody b' ∧
        isNewOf (latestIdOf (recordOf w'.parsed))
          (latestHashOf w'.hashFn (latestIdOf (recordOf w'.parsed)) b') st'
          = true) :=
  forced_dispatch_preserves_marker wC1 { lastSeenId := some "abc123" } [subA]
    "feedbody" "abc123" rfl (by decide) rfl (Or.inl ⟨by decide, rfl⟩)

/-- C3: Identifier priority — the identifier is taken from the hash field
first, then id, then timestamp, then ts; and for a record exposing a
(nonempty string) content-hash together with a timestamp field, the hash
is the identifier, the fingerprint is never computed (the hash step
returns "" regardless of the hash function), and the change detector
compares identifiers only. -/
theorem identifier_priority (r : JRecord) :
    (∀ h, r.hash = some (JVal.str h) → latestIdOf (some r) = h) ∧
    (∀ i, r.hash = none → r.id = some (JVal.str i) → latestIdOf (some r) = i) ∧
    (∀ t, r.hash = none → r.id = none → r.timestamp = some (JVal.str t) →
      latestIdOf (some r) = t) ∧
    (∀ t, r.hash = none → r.id = none → r.timestamp = none →
      r.ts = some (JVal.str t) → latestIdOf (some r) = t) ∧
    (∀ h v, r.hash = some (JVal.str h) → h ≠ "" → r.timestamp = some v →
      latestIdOf (some r) = h ∧
      (∀ (hashFn : String → String) (b : String),
        latestHashOf hashFn (latestIdOf (some r)) b = "") ∧
      (∀ (hashFn : String → String) (b : String) (st : State),
        isNewOf (latestIdOf (some r))
            (latestHashOf hashFn (latestIdOf (some r)) b) st
          = decide (some h ≠ st.lastSeenId))) := by
  refine ⟨?_, ?_, ?_, ?_, ?_⟩
  · intro h hh
    simp [latestIdOf, candidateOf, jvalToId, hh]
  · intro i hh hi
    simp [latestIdOf, candidateOf, jvalToId, hh, hi, Option.orElse]
  · intro t hh hi ht
    simp [latestIdOf, candidateOf, jvalToId, hh, hi, ht, Option.orElse]
  · intro t hh hi htm ht
    simp [latestIdOf, candidateOf, jvalToId, hh, hi, htm, ht, Option.orElse]
  · intro h v hh hne _
    have hid : latestIdOf (some r) = h := by
      simp [latestIdOf, candidateOf, jvalToId, hh]
    refine ⟨hid, ?_, ?_⟩
    · intro hashFn b
      rw [hid]
      simp [latestHashOf, hne]
    · intro hashFn b st
      rw [hid]
      simp [latestHashOf, isNewOf, hne]

/-- Concrete record for the C3 witness: both a hash and a timestamp
field. -/
def recC3 : JRecord :=
  { hash := some (.str "abc123"), timestamp := some (.str "2026-01-01") }

theorem identifier_priority_witness :
    latestIdOf (some recC3) = "abc123" ∧
    latestHashOf (fun _ => "fp") (latestIdOf (some recC3)) "raw" = "" ∧
    isNewOf (latestIdOf (some recC3))
        (latestHashOf (fun _ => "fp") (latestIdOf (some recC3)) "raw")
        { lastSeenId := some "abc123" }
      = decide (some "abc123" ≠ (some "abc123" : Option String)) := by
  obtain ⟨hid, hfp, hcmp⟩ :=
    (identifier_priority recC3).2.2.2.2 "abc123" (JVal.str "2026-01-01")
      rfl (by decide) rfl
  exact ⟨hid, hfp (fun _ => "fp") "raw",
    hcmp (fun _ => "fp") "raw" { lastSeenId := some "abc123" }⟩

/-- The dispatch loop with an arbitrary accumulator equals the
accumulator followed by the spec-side filterMap pass. -/
theorem dispatchLoop_acc_eq (now : String) (push : Subscription → PushOutcome)
    (subs : List Subscription) (acc : List Subscription) :
    subs.foldl
      (fun nextSubs sub =>
        match push sub with
        | .success => nextSubs ++ [{ sub with lastNotifiedAt := some now }]
        | .failStatus code =>
            if code = 404 ∨ code = 410 then nextSubs else nextSubs ++ [sub]
        | .failOther => nextSubs ++ [sub])
      acc
    = acc ++ dispatchPassSpec now push subs := by
  induction subs generalizing acc with
  | nil => simp [dispatchPassSpec]
  | cons s rest ih =>
      simp only [List.foldl_cons, dispatchPassSpec, List.filterMap_cons]
      rw [ih]
      cases hp : push s with
      | success => simp [dispatchPassSpec, addressGone]
      | failStatus code =>
          by_cases hc : code = 404 ∨ code = 410
          · rcases hc with h | h <;> simp [dispatchPassSpec, addressGone, h]
          · have h4 : code ≠ 404 := fun h => hc (Or.inl h)
            have h10 : code ≠ 410 := fun h => hc (Or.inr h)
            simp [dispatchPassSpec, addressGone, hc, h4, h10]
      | failOther => simp [dispatchPassSpec, addressGone]

/-- The imperative dispatch loop computes exactly the spec-side pass. -/
theorem dispatchLoop_eq_spec (now : String) (push : Subscription → PushOutcome)
    (subs : List Subscription) :
    dispatchLoop now push subs = dispatchPassSpec now push subs := by
  rw [dispatchLoop, dispatchLoop_acc_eq]
  simp

/-- C4: Selective pruning — in a cycle that reaches dispatch, the stored
next recipient set is exactly the spec-side pass (success → retained with
`lastNotifiedAt` set to the dispatch time; "address gone" status 404/410 →
dropped; any other failure → retained unchanged), computed in memory over
the whole list, and the subscription store receives exactly one save call,
at the end of the pass. -/
theorem selective_pruning (f : Bool) (w : World) (st : State)
    (subs : List Subscription) (b : String)
    (hf : w.fetch = FetchOutcome.okBody b)
    (hb : jsTrim b ≠ "")
    (hreach : isNewOf (latestIdOf (recordOf w.parsed))
        (latestHashOf w.hashFn (latestIdOf (recordOf w.parsed)) b) st = true
      ∨ f = true)
    (hsw : w.stateWriteFails = false)
    (hne : subs ≠ [])
    (hww : w.subsWriteFails = false) :
    (pollLatest f w st subs).subsAfter = dispatchPassSpec w.now w.push subs ∧
    (pollLatest f w st subs).subsSaves = 1 ∧
    (pollLatest f w st subs).attempts = subs.length ∧
    (pollLatest f w st subs).delivered = deliveredCount w.push subs := by
  have hlen : subs.length ≠ 0 := by
    intro h
    exact hne (List.length_eq_zero.mp h)
  have hgate : (!isNewOf (latestIdOf (recordOf w.parsed))
      (latestHashOf w.hashFn (latestIdOf (recordOf w.parsed)) b) st && !f) = false := by
    rcases hreach with hn | hforce
    · simp [hn]
    · simp [hforce]
  unfold pollLatest
  rw [hf]
  by_cases hnew : isNewOf (latestIdOf (recordOf w.parsed))
      (latestHashOf w.hashFn (latestIdOf (recordOf w.parsed)) b) st = true
  · simp [hb, hgate, hnew, hsw, hlen, hww, dispatchLoop_eq_spec]
  · simp only [Bool.not_eq_true] at hnew
    have hforce : f = true := by
      rcases hreach with hn | hf2
      · rw [hnew] at hn
        simp at hn
      · exact hf2
    simp [hb, hnew, hforce, hsw, hlen, hww, dispatchLoop_eq_spec]

/-- Concrete data for the C4 witness: three recipients, the second
reports "address gone" (410), the others succeed. -/
def subB : Subscription :=
  { id := "idB", endpoint := "epB", keys := { p256dh := "pB", auth := "aB" },
    createdAt := "t0" }

def subC : Subscription :=
  { id := "idC", endpoint := "epC", keys := { p256dh := "pC", auth := "aC" },
    createdAt := "t0" }

def pushC4 : Subscription → PushOutcome :=
  fun s => if s.id = "idB" then .failStatus 410 else .success

def wC4 : World :=
  { fetch := .okBody "feedbody",
    parsed := .objectVal { hash := some (.str "new1") },
    hashFn := fun _ => "fingerprint", push := pushC4, now := "t1" }

theorem selective_pruning_witness :
    (pollLatest false wC4 {} [subA, subB, subC]).subsAfter
      = dispatchPassSpec "t1" pushC4 [subA, subB, subC] ∧
    (pollLatest false wC4 {} [subA, subB, subC]).subsSaves = 1 ∧
    (pollLatest false wC4 {} [subA, subB, subC]).attempts
      = [subA, subB, subC].length ∧
    (pollLatest false wC4 {} [subA, subB, subC]).delivered
      = deliveredCount pushC4 [subA, subB, subC] ∧
    dispatchPassSpec "t1" pushC4 [subA, subB, subC]
      = [{ subA with lastNotifiedAt := some "t1" },
         { subC with lastNotifiedAt := some "t1" }] ∧
    deliveredCount pushC4 [subA, subB, subC] = 2 := by
  have h := selective_pruning false wC4 {} [subA, subB, subC] "feedbody"
    rfl (by decide) (Or.inl (by decide)) rfl (by decide) rfl
  exact ⟨h.1, h.2.1, h.2.2.1, h.2.2.2, by decide, by decide⟩

/-- Appending a subscription whose id is `i` to a list containing no id
`i` makes `find?` for id `i` return exactly that subscription. -/
theorem find_append_fresh (subs : List Subscription) (newSub : Subscription)
    (i : String) (hfresh : ∀ s ∈ subs, s.id ≠ i) (hnew : newSub.id = i) :
    (subs ++ [newSub]).find? (fun item => item.id = i) = some newSub := by
  induction subs with
  | nil => simp [List.find?, hnew]
  | cons s rest ih =>
      have hs : s.id ≠ i := hfresh s (by simp)
      have ih2 := ih fun x hx => hfresh x (by simp [hx])
      simp only [List.cons_append, List.find?]
      simp [hs, ih2]

/-- C5: Registration idempotence — registering an endpoint not yet in the
store and then registering the same endpoint again with different
credentials leaves the store unchanged by the second call (no save), and
the store holds exactly one subscription with the deterministic id of that
endpoint, carrying the first registration's credentials and creation
time. -/
theorem registration_idempotent (subs : List Subscription) (ep : String)
    (k1 k2 : SubKeys) (t1 t2 : String)
    (hfresh : ∀ s ∈ subs, s.id ≠ subscriptionId ep) :
    (registerRecipient (registerRecipient subs ep k1 t1).1 ep k2 t2).1
      = (registerRecipient subs ep k1 t1).1 ∧
    (registerRecipient (registerRecipient subs ep k1 t1).1 ep k2 t2).2 = false ∧
    ((registerRecipient subs ep k1 t1).1.filter
        fun s => s.id = subscriptionId ep)
      = [{ id := subscriptionId ep, endpoint := ep, keys := k1,
           createdAt := t1, lastNotifiedAt := none }] := by
  have hnone : subs.find? (fun item => item.id = subscriptionId ep) = none := by
    rw [List.find?_eq_none]
    intro x hx
    simp [hfresh x hx]
  have hfirst : (registerRecipient subs ep k1 t1).1
      = subs ++ [{ id := subscriptionId ep, endpoint := ep, keys := k1,
                   createdAt := t1, lastNotifiedAt := none }] := by
    rw [registerRecipient]
    simp [hnone]
  have hfind := find_append_fresh subs
    { id := subscriptionId ep, endpoint := ep, keys := k1,
      createdAt := t1, lastNotifiedAt := none }
    (subscriptionId ep) hfresh rfl
  refine ⟨?_, ?_, ?_⟩
  · rw [hfirst, registerRecipient]
    simp [hfind]
  · rw [hfirst, registerRecipient]
    simp [hfind]
  · rw [hfirst, List.filter_append]
    have h1 : subs.filter (fun s => s.id = subscriptionId ep) = [] := by
      rw [List.filter_eq_nil_iff]
      intro x hx
      simp [hfresh x hx]
    rw [h1]
    simp

theorem registration_idempotent_witness :
    (registerRecipient (registerRecipient [] "ep" { p256dh := "k1", auth := "a1" } "t1").1
        "ep" { p256dh := "k2", auth := "a2" } "t2").1
      = (registerRecipient [] "ep" { p256dh := "k1", auth := "a1" } "t1").1 ∧
    (registerRecipient (registerRecipient [] "ep" { p256dh := "k1", auth := "a1" } "t1").1
        "ep" { p256dh := "k2", auth := "a2" } "t2").2 = false ∧
    ((registerRecipient [] "ep" { p256dh := "k1", auth := "a1" } "t1").1.filter
        fun s => s.id = subscriptionId "ep")
      = [{ id := subscriptionId "ep", endpoint := "ep",
           keys := { p256dh := "k1", auth := "a1" },
           createdAt := "t1", lastNotifiedAt := none }] :=
  registration_idempotent [] "ep" { p256dh := "k1", auth := "a1" }
    { p256dh := "k2", auth := "a2" } "t1" "t2" (by simp)

/-- Record used in the C6 counterexample: it exposes an id field (so the
cycle's identifier is "xyz") but no hash field. -/
def recC6 : JRecord := { id := some (.str "xyz") }

/-- C6 counterexample: the claim says the targetUrl carries the content
identifier as a fragment whenever an identifier is known, and that the
generic fallback title is "New message".  For a record whose identifier
comes from the id field, the builder emits the bare root page (the URL
uses only the hash field), and the generic title is actually
"New anproto message". -/
theorem payload_builder_counterexample :
    latestIdOf (some recC6) = "xyz" ∧
    (toPushPayload (some recC6) (fun _ => none)).url = "https://wiredove.net/" ∧
    (toPushPayload (some recC6) (fun _ => none)).url ≠ "https://wiredove.net/#xyz" ∧
    (toPushPayload (some recC6) (fun _ => none)).title = "New anproto message" ∧
    (toPushPayload (some recC6) (fun _ => none)).title ≠ "New message" := by
  refine ⟨by decide, by decide, by decide, by decide, by decide⟩

/-- C6 (amended): the targetUrl is the canonical page with the record's
hash field appended as a fragment when that field is a nonempty string,
and the bare root page otherwise; the title and body are derived from the
YAML-parsed name/body fields of the record's text, and on parser failure,
missing text, or missing/empty-after-trim fields the builder falls back to
the generic title "New anproto message" and the generic body "Tap to view
the latest update". -/
theorem payload_builder_amended (latest : Option JRecord)
    (yaml : String → Option YamlAttrs) :
    ((payloadHash latest ≠ "" →
        (toPushPayload latest yaml).url
          = "https://wiredove.net/#" ++ payloadHash latest) ∧
      (payloadHash latest = "" →
        (toPushPayload latest yaml).url = "https://wiredove.net/")) ∧
    ((toPushPayload latest yaml).title
        = formatPushTitle (if payloadRawText latest = "" then none
            else (parsePostYaml yaml (payloadRawText latest)).1) ∧
      (toPushPayload latest yaml).body
        = formatPushBody (if payloadRawText latest = "" then none
            else (parsePostYaml yaml (payloadRawText latest)).2)) ∧
    ((payloadRawText latest = "" ∨ yaml (payloadRawText latest) = none →
        (toPushPayload latest yaml).title = "New anproto message" ∧
        (toPushPayload latest yaml).body = "Tap to view the latest update") ∧
      (∀ attrs n, payloadRawText latest ≠ "" →
        yaml (payloadRawText latest) = some attrs →
        attrs.name = some (JVal.str n) → jsTrim n ≠ "" →
        (toPushPayload latest yaml).title
          = "New Wiredove Message from " ++ jsTrim n) ∧
      (∀ attrs, payloadRawText latest ≠ "" →
        yaml (payloadRawText latest) = some attrs →
        strField attrs.name = none →
        (toPushPayload latest yaml).title = "New anproto message")) := by
  refine ⟨⟨?_, ?_⟩, ⟨?_, ?_⟩, ⟨?_, ?_, ?_⟩⟩
  · intro h
    simp [toPushPayload, h]
  · intro h
    simp [toPushPayload, h]
  · by_cases h : payloadRawText latest = "" <;> simp [toPushPayload, h]
  · by_cases h : payloadRawText latest = "" <;> simp [toPushPayload, h]
  · intro h
    rcases h with h | h
    · simp [toPushPayload, h, formatPushTitle, formatPushBody]
    · by_cases ht : payloadRawText latest = ""
      · simp [toPushPayload, ht, formatPushTitle, formatPushBody]
      · simp [toPushPayload, ht, parsePostYaml, h, formatPushTitle, formatPushBody]
  · intro attrs n ht hy hn htrim
    have hsf : strField attrs.name = some (jsTrim n) := by
      simp [strField, hn, htrim]
    simp [toPushPayload, ht, parsePostYaml, hy, hsf, formatPushTitle]
    intro habs
    exact absurd habs htrim
  · intro attrs ht hy hsf
    simp [toPushPayload, ht, parsePostYaml, hy, hsf, formatPushTitle]

/-- Record and parser oracle for the C6 witness (the spec's scenario
record). -/
def recScen : JRecord :=
  { hash := some (.str "abc123"),
    text := some (.str "name: Alice\nbody: Hello world") }

def yamlScen : String → Option YamlAttrs :=
  fun _ => some { name := some (.str "Alice"), body := some (.str "Hello world") }

theorem payload_builder_amended_witness :
    (toPushPayload (some recScen) yamlScen).url = "https://wiredove.net/#abc123" ∧
    (toPushPayload (some recScen) yamlScen).title
      = "New Wiredove Message from Alice" ∧
    (toPushPayload (some recScen) yamlScen).body = "Hello world" := by
  have h := payload_builder_amended (some recScen) yamlScen
  refine ⟨?_, ?_, ?_⟩
  · have := h.1.1 (by decide)
    rw [this]
    decide
  · have := h.2.2.2.1 { name := some (.str "Alice"), body := some (.str "Hello world") }
      "Alice" (by decide) rfl rfl (by decide)
    rw [this]
    decide
  · have := h.2.1.2
    rw [this]
    decide

/-- World for the C7 counterexample: new content (hash "h1", empty stored
marker), zero subscriptions. -/
def wC7 : World :=
  { fetch := .okBody "data",
    parsed := .objectVal { hash := some (.str "h1") },
    hashFn := fun _ => "fp" }

/-- C7 counterexample: with new content and zero registered
subscriptions, the cycle reports changed=true and zero deliveries, but its
reason string is "no subscriptions", not the claimed "no recipients". -/
theorem no_recipients_counterexample :
    (pollLatest false wC7 {} []).result.changed = true ∧
    (pollLatest false wC7 {} []).attempts = 0 ∧
    (pollLatest false wC7 {} []).delivered = 0 ∧
    (pollLatest false wC7 {} []).result.reason = some "no subscriptions" ∧
    (pollLatest false wC7 {} []).result.reason ≠ some "no recipients" := by
  refine ⟨by decide, by decide, by decide, by decide, by decide⟩

/-- C7 (amended): a cycle that fetches new content while zero
subscriptions are registered reports changed=true, attempts and performs
zero deliveries, reports the reason "no subscriptions", and the dedup
marker has already been updated (one save call) to the new content's
identifier or fingerprint before stopping. -/
theorem no_recipients_amended (f : Bool) (w : World) (st : State) (b : String)
    (hf : w.fetch = FetchOutcome.okBody b)
    (hb : jsTrim b ≠ "")
    (hnew : isNewOf (latestIdOf (recordOf w.parsed))
        (latestHashOf w.hashFn (latestIdOf (recordOf w.parsed)) b) st = true)
    (hsw : w.stateWriteFails = false) :
    (pollLatest f w st []).result.changed = true ∧
    (pollLatest f w st []).result.sent = false ∧
    (pollLatest f w st []).result.reason = some "no subscriptions" ∧
    (pollLatest f w st []).attempts = 0 ∧
    (pollLatest f w st []).delivered = 0 ∧
    (pollLatest f w st []).stateAfter
      = markerOf (latestIdOf (recordOf w.parsed))
          (latestHashOf w.hashFn (latestIdOf (recordOf w.parsed)) b) ∧
    (pollLatest f w st []).stateSaves = 1 := by
  unfold pollLatest
  rw [hf]
  simp [hb, hnew, hsw]

theorem no_recipients_amended_witness :
    (pollLatest false wC7 {} []).result.changed = true ∧
    (pollLatest false wC7 {} []).result.sent = false ∧
    (pollLatest false wC7 {} []).result.reason = some "no subscriptions" ∧
    (pollLatest false wC7 {} []).attempts = 0 ∧
    (pollLatest false wC7 {} []).delivered = 0 ∧
    (pollLatest false wC7 {} []).stateAfter
      = markerOf (latestIdOf (recordOf wC7.parsed))
          (latestHashOf wC7.hashFn (latestIdOf (recordOf wC7.parsed)) "data") ∧
    (pollLatest false wC7 {} []).stateSaves = 1 :=
  no_recipients_amended false wC7 {} "data" rfl (by decide) (by decide) rfl

/-- C8: Unavailable feed is atomic — if the fetch response is non-success
or the body is empty after trimming, the cycle stops with changed=false,
sent=false and a named reason ("latest fetch failed" or "empty response"),
with zero load and zero save calls on both stores and both stores'
contents unchanged. -/
theorem unavailable_feed_atomic (f : Bool) (w : World) (st : State)
    (subs : List Subscription)
    (h : (∃ s, w.fetch = FetchOutcome.notOk s) ∨
         (∃ b, w.fetch = FetchOutcome.okBody b ∧ jsTrim b = "")) :
    (pollLatest f w st subs).result.changed = false ∧
    (pollLatest f w st subs).result.sent = false ∧
    ((pollLatest f w st subs).result.reason = some "latest fetch failed" ∨
      (pollLatest f w st subs).result.reason = some "empty response") ∧
    (pollLatest f w st subs).stateAfter = st ∧
    (pollLatest f w st subs).subsAfter = subs ∧
    (pollLatest f w st subs).stateLoads = 0 ∧
    (pollLatest f w st subs).stateSaves = 0 ∧
    (pollLatest f w st subs).subsLoads = 0 ∧
    (pollLatest f w st subs).subsSaves = 0 := by
  rcases h with ⟨s, hs⟩ | ⟨b, hb, htrim⟩
  · unfold pollLatest
    rw [hs]
    simp
  · unfold pollLatest
    rw [hb]
    simp [htrim]

theorem unavailable_feed_atomic_witness :
    (pollLatest false { fetch := .notOk 503 } {} []).result.changed = false ∧
    (pollLatest false { fetch := .notOk 503 } {} []).result.sent = false ∧
    ((pollLatest false { fetch := .notOk 503 } {} []).result.reason
        = some "latest fetch failed" ∨
      (pollLatest false { fetch := .notOk 503 } {} []).result.reason
        = some "empty response") ∧
    (pollLatest false { fetch := .notOk 503 } {} []).stateAfter = {} ∧
    (pollLatest false { fetch := .notOk 503 } {} []).subsAfter = [] ∧
    (pollLatest false { fetch := .notOk 503 } {} []).stateLoads = 0 ∧
    (pollLatest false { fetch := .notOk 503 } {} []).stateSaves = 0 ∧
    (pollLatest false { fetch := .notOk 503 } {} []).subsLoads = 0 ∧
    (pollLatest false { fetch := .notOk 503 } {} []).subsSaves = 0 :=
  unavailable_feed_atomic false { fetch := .notOk 503 } {} [] (Or.inl ⟨503, rfl⟩)

/-- World for the C9 counterexample: new content, but the dedup-marker
write throws. -/
def wC9 : World :=
  { fetch := .okBody "data",
    parsed := .objectVal { hash := some (.str "h2") },
    hashFn := fun _ => "fp",
    stateWriteFails := true }

/-- C9 counterexample: a store-write failure does not propagate out of the
cycle — `pollLatest` itself catches it and returns the ordinary summary
object with the classification reason "poll error" (changed=false,
sent=false), contradicting the claim that such a failure is neither
classified nor recovered within the cycle and surfaces only through the
calling trigger's error reporting. -/
theorem persistence_failure_counterexample :
    (pollLatest false wC9 {} []).result = pollErrorResult ∧
    (pollLatest false wC9 {} []).result.reason = some "poll error" ∧
    (pollLatest false wC9 {} []).result.changed = false ∧
    (pollLatest false wC9 {} []).result.sent = false ∧
    (pollLatest false wC9 {} []).stateAfter = ({} : State) := by
  refine ⟨by decide, by decide, by decide, by decide, by decide⟩

/-- C9 (amended): a persisted-store write failure during a cycle is caught
by the cycle's own catch-all and converted into the normal summary with
reason "poll error" (the failed store keeps its prior contents); a
persisted-store read failure never throws at all, because `readJsonFile`
returns the fallback.  No store failure propagates out of the cycle. -/
theorem persistence_failure_amended :
    (∀ (st : State) (subs : List Subscription),
      readJsonFile (Except.error ()) st = st ∧
      readJsonFile (Except.error ()) subs = subs) ∧
    (∀ (f : Bool) (w : World) (st : State) (subs : List Subscription) (b : String),
      w.fetch = FetchOutcome.okBody b → jsTrim b ≠ "" →
      isNewOf (latestIdOf (recordOf w.parsed))
          (latestHashOf w.hashFn (latestIdOf (recordOf w.parsed)) b) st = true →
      w.stateWriteFails = true →
      (pollLatest f w st subs).result = pollErrorResult ∧
      (pollLatest f w st subs).stateAfter = st ∧
      (pollLatest f w st subs).subsAfter = subs) ∧
    (∀ (f : Bool) (w : World) (st : State) (subs : List Subscription) (b : String),
      w.fetch = FetchOutcome.okBody b → jsTrim b ≠ "" →
      (isNewOf (latestIdOf (recordOf w.parsed))
          (latestHashOf w.hashFn (latestIdOf (recordOf w.parsed)) b) st = true
        ∨ f = true) →
      w.stateWriteFails = false → subs ≠ [] → w.subsWriteFails = true →
      (pollLatest f w st subs).result = pollErrorResult ∧
      (pollLatest f w st subs).subsAfter = subs) := by
  refine ⟨?_, ?_, ?_⟩
  · intro st subs
    exact ⟨rfl, rfl⟩
  · intro f w st subs b hf hb hnew hsw
    unfold pollLatest
    rw [hf]
    simp [hb, hnew, hsw]
  · intro f w st subs b hf hb hreach hsw hne hww
    have hlen : subs.length ≠ 0 := by
      intro h
      exact hne (List.length_eq_zero.mp h)
    unfold pollLatest
    rw [hf]
    by_cases hnew : isNewOf (latestIdOf (recordOf w.parsed))
        (latestHashOf w.hashFn (latestIdOf (recordOf w.parsed)) b) st = true
    · simp [hb, hnew, hsw, hlen, hww]
    · simp only [Bool.not_eq_true] at hnew
      have hforce : f = true := by
        rcases hreach with hn | hf2
        · rw [hnew] at hn
          simp at hn
        · exact hf2
      simp [hb, hnew, hforce, hsw, hlen, hww]

theorem persistence_failure_amended_witness :
    (readJsonFile (Except.error ()) ({} : State) = {} ∧
      readJsonFile (Except.error ()) ([] : List Subscription) = []) ∧
    ((pollLatest false wC9 {} []).result = pollErrorResult ∧
      (pollLatest false wC9 {} []).stateAfter = {} ∧
      (pollLatest false wC9 {} []).subsAfter = []) := by
  have h := persistence_failure_amended
  exact ⟨h.1 {} [], h.2.1 false wC9 {} [] "data" rfl (by decide) (by decide) rfl⟩

/-- C10: store loads are total under read failure — a failed read or parse
of the state file loads the empty marker, under which any fetched content
is classified as new; a failed read or parse of the subscriptions file
loads the empty list, under which a cycle that gets past the change gate
reports "no subscriptions"; no load throws (both loaders are total
functions returning the fallback on the error case). -/
theorem store_loads_total :
    loadState (Except.error ()) = { lastSeenId := none, lastSeenHash := none } ∧
    loadSubscriptions (Except.error ()) = [] ∧
    (∀ latestId latestHash,
      isNewOf latestId latestHash (loadState (Except.error ())) = true) ∧
    (∀ (f : Bool) (w : World) (b : String),
      w.fetch = FetchOutcome.okBody b → jsTrim b ≠ "" →
      w.stateWriteFails = false →
      (pollLatest f w (loadState (Except.error ()))
          (loadSubscriptions (Except.error ()))).result.reason
        = some "no subscriptions") := by
  refine ⟨rfl, rfl, ?_, ?_⟩
  · intro latestId latestHash
    by_cases h : latestId = "" <;>
      simp [isNewOf, loadState, readJsonFile, h]
  · intro f w b hf hb hsw
    have hnew : isNewOf (latestIdOf (recordOf w.parsed))
        (latestHashOf w.hashFn (latestIdOf (recordOf w.parsed)) b)
        (loadState (Except.error ())) = true := by
      by_cases h : latestIdOf (recordOf w.parsed) = "" <;>
        simp [isNewOf, loadState, readJsonFile, h]
    unfold pollLatest
    rw [hf]
    simp [hb, hnew, hsw, loadSubscriptions, readJsonFile]

/-- World for the C10 witness. -/
def wC10 : World :=
  { fetch := .okBody "data",
    parsed := .objectVal { hash := some (.str "h1") },
    hashFn := fun _ => "fp" }

theorem store_loads_total_witness :
    loadState (Except.error ()) = { lastSeenId := none, lastSeenHash := none } ∧
    loadSubscriptions (Except.error ()) = [] ∧
    isNewOf "h1" "" (loadState (Except.error ())) = true ∧
    (pollLatest false wC10 (loadState (Except.error ()))
        (loadSubscriptions (Except.error ()))).result.reason
      = some "no subscriptions" := by
  have h := store_loads_total
  exact ⟨h.1, h.2.1, h.2.2.1 "h1" "",
    h.2.2.2 false wC10 "data" rfl (by decide) rfl⟩

end Anpush
